import Mathlib

set_option maxRecDepth 8000

namespace ExpertAI

/-! Shallow embedding of the identity-resolution pipeline of the ExpertAI
repository.  Pure control flow and data shaping are translated from the
Python source; the external agent/HTTP calls are modelled as explicit
oracle inputs (the per-row outcome of the remote calls), so every
definition is an executable Lean function of the source's inputs plus
those oracles. -/

/-- Python `dict.get(k, dflt)` over an association list with string keys
(dicts have unique keys, so first-match lookup is faithful). -/
def dget (d : List (String × String)) (k dflt : String) : String :=
  match d.find? (fun p => p.1 == k) with
  | some p => p.2
  | none => dflt

/-- One row obtained from the table query: either a JSON dictionary
(ordered column/value pairs) or some non-dictionary value, which both
batch loops skip (`if not isinstance(row, dict): continue`). -/
inductive TableRow
  | dict (entries : List (String × String))
  | nonDict
  deriving DecidableEq

/-- `app/models/orcid.py`, class `OrcidSearchResult`: the per-row record
built by the DeepSeek batch task.  `confidence` is a numeric score in
[0,1]; the embedding uses `ℚ` since only the exact constants 0 and 0.8
appear in the code paths under study. -/
structure OrcidSearchResult where
  orcid_id : Option String
  first_name : Option String
  last_name : Option String
  email : Option String
  country : Option String
  affiliation : Option String
  main_research_area : Option String
  specific_research_area : Option String
  reasoning : Option String
  confidence : ℚ
  original_data : Option (List (String × String))
  deriving DecidableEq

/-- Outcome of the DeepSeek agent call for one dictionary row of
`table_search_task` (route `/table-search-deepseek`,
`app/routes/orcid.py` lines 393-476):
`found r` models `researchers_data['researchers']` non-empty with first
element `r` (a JSON dict); `notFound` covers a missing/empty researchers
list; `error msg` models an exception raised while processing the row. -/
inductive DeepseekOutcome
  | found (researcher : List (String × String))
  | notFound
  | error (msg : String)
  deriving DecidableEq

/-- One input row of the DeepSeek batch task together with the oracle
outcome of its remote processing. -/
structure DeepseekRowInput where
  row : TableRow
  outcome : DeepseekOutcome
  deriving DecidableEq

/-- Per-dictionary-row record construction of the DeepSeek batch task
(`app/routes/orcid.py` lines 418-476), one branch per agent outcome.
All three branches set `original_data := row`. -/
def deepseekProcessDict (e : List (String × String)) :
    DeepseekOutcome → OrcidSearchResult
  | DeepseekOutcome.found r =>
      { orcid_id := some (dget r "orcid" ""),
        first_name := some (dget r "given_names" ""),
        last_name := some (dget r "family_names" ""),
        email := some (dget r "email" ""),
        country := some (dget r "country" ""),
        affiliation := some (dget r "affiliation" ""),
        main_research_area := some (dget r "main_research_area" ""),
        specific_research_area := some (dget r "specific_research_area" ""),
        reasoning := some "ORCID found using DeepSeek agent",
        confidence := 0.8,
        original_data := some e }
  | DeepseekOutcome.notFound =>
      { orcid_id := some "",
        first_name := some (dget e "first_name" (dget e "prenom" "")),
        last_name := some (dget e "last_name" (dget e "nom" "")),
        email := some (dget e "email" ""),
        country := some (dget e "country" ""),
        affiliation := some (dget e "affiliation" (dget e "institution" "")),
        main_research_area := none,
        specific_research_area := none,
        reasoning := some "No ORCID profile found using DeepSeek agent",
        confidence := 0,
        original_data := some e }
  | DeepseekOutcome.error msg =>
      { orcid_id := some "",
        first_name := some (dget e "first_name" (dget e "prenom" "")),
        last_name := some (dget e "last_name" (dget e "nom" "")),
        email := some (dget e "email" ""),
        country := some (dget e "country" ""),
        affiliation := some (dget e "affiliation" (dget e "institution" "")),
        main_research_area := none,
        specific_research_area := none,
        reasoning := some ("Error processing: " ++ msg),
        confidence := 0,
        original_data := some e }

/-- The row loop of the DeepSeek batch task: non-dictionary rows are
skipped (`continue` before any append); every dictionary row appends
exactly one record (found / not-found / error branches all append). -/
def deepseekBatch (rows : List DeepseekRowInput) : List OrcidSearchResult :=
  rows.filterMap fun ri =>
    match ri.row with
    | TableRow.nonDict => none
    | TableRow.dict e => some (deepseekProcessDict e ri.outcome)

/-- Fields of the picker's chosen result after optional works enrichment,
as read back with `hasattr`-guarded accesses (absent attribute ↦ `none`)
in the multi-agent batch task. -/
structure PickedFields where
  orcid_id : Option String
  first_name : Option String
  last_name : Option String
  email : Option String
  country : Option String
  affiliation : Option String
  main_research_area : Option String
  specific_research_area : Option String
  deriving DecidableEq

/-- Oracle outcome for one dictionary row of the multi-agent batch task
(`app/routes/orcid.py` lines 95-326).  Each failure constructor models a
code path that executes `continue` without appending a result:
unparseable extraction, missing first/last name, an empty
`search_results` list, and an invalid picker output or picking
exception.  `picked best` models a successful pick. -/
inductive MultiRowOutcome
  | extractFailed
  | missingName
  | noSearchResults
  | pickerFailed
  | picked (best : PickedFields)
  deriving DecidableEq

/-- One input row of the multi-agent batch task with its oracle outcome. -/
structure MultiRowInput where
  row : TableRow
  outcome : MultiRowOutcome
  deriving DecidableEq

/-- The `result_dict` appended for a successfully picked row of the
multi-agent batch task (`app/routes/orcid.py` lines 300-312). -/
structure MultiResultDict where
  orcid_id : Option String
  first_name : Option String
  last_name : Option String
  email : Option String
  country : Option String
  affiliation : Option String
  main_research_area : Option String
  specific_research_area : Option String
  original_data : List (String × String)
  deriving DecidableEq

/-- Per-dictionary-row processing of the multi-agent batch task: every
failure outcome yields no record (`continue`); only a successful pick
appends `result_dict` with `original_data := row`. -/
def processRowMulti (e : List (String × String)) :
    MultiRowOutcome → Option MultiResultDict
  | MultiRowOutcome.picked best =>
      some { orcid_id := best.orcid_id,
             first_name := best.first_name,
             last_name := best.last_name,
             email := best.email,
             country := best.country,
             affiliation := best.affiliation,
             main_research_area := best.main_research_area,
             specific_research_area := best.specific_research_area,
             original_data := e }
  | _ => none

/-- The row loop of the multi-agent batch task. -/
def multiAgentBatch (rows : List MultiRowInput) : List MultiResultDict :=
  rows.filterMap fun ri =>
    match ri.row with
    | TableRow.nonDict => none
    | TableRow.dict e => processRowMulti e ri.outcome

/-- The payload stored by `update_task_status(task_id, "completed", ...)`
at the end of the multi-agent batch task (`app/routes/orcid.py` lines
319-324): `total_processed` counts all rows, `successful_matches` counts
the appended results. -/
structure TaskResult where
  results : List MultiResultDict
  total_processed : Nat
  successful_matches : Nat
  deriving DecidableEq

/-- Final task record of the multi-agent batch task once the row loop has
run to completion. -/
def multiAgentTaskResult (rows : List MultiRowInput) : TaskResult :=
  { results := multiAgentBatch rows,
    total_processed := rows.length,
    successful_matches := (multiAgentBatch rows).length }

/-- Status and payload written at the end of the multi-agent batch
task: the loop body never runs for an empty table, and the status is set
to "completed" with the aggregate payload. -/
def multiAgentTaskFinal (rows : List MultiRowInput) : String × TaskResult :=
  ("completed", multiAgentTaskResult rows)

/-- `app/models/orcid.py`, class `ResearcherInfoTable` (the individual
search endpoint's result shape; it has no confidence field). -/
structure ResearcherInfoTable where
  orcid_id : Option String
  first_name : Option String
  last_name : Option String
  email : Option String
  country : Option String
  affiliation : Option String
  main_research_area : Option String
  specific_research_area : Option String
  deriving DecidableEq

/-- The empty result returned by the individual multi-agent endpoint
`/search-individual` when every search variant yields nothing
(`app/routes/orcid.py` lines 794-813): identity fields fall back to the
original request values and both research areas are empty strings. -/
def individualEmptyResult (ri : List (String × String)) : ResearcherInfoTable :=
  { orcid_id := some "",
    first_name := some (dget ri "first_name" (dget ri "prenom" "")),
    last_name := some (dget ri "last_name" (dget ri "nom" "")),
    email := some (dget ri "email" ""),
    country := some (dget ri "country" ""),
    affiliation := some (dget ri "affiliation" (dget ri "affiliations" "")),
    main_research_area := some "",
    specific_research_area := some "" }

/-- Python truthiness of an optional string value (`None` and the empty
string are falsy), used by the `... if affiliation else None` variant
guards. -/
def pyTruthy : Option String → Bool
  | none => false
  | some s => !s.isEmpty

/-- The search-variant list built per extracted row, translated from
`app/routes/orcid.py` lines 142-151 (the identical list also appears at
lines 728-737): a literal five-slot list whose conditional slots are
`None` when the supporting field is falsy, then filtered. -/
def search_variants (affiliation email country : Option String) :
    List (String × String) :=
  ([some ("name_only", "Searching by name only"),
    if pyTruthy affiliation then
      some ("name_affiliation", "Searching by name and affiliation")
    else none,
    if pyTruthy email then
      some ("name_email", "Searching by name and email")
    else none,
    if pyTruthy country then
      some ("name_country", "Searching by name and country")
    else none,
    some ("swapped", "Searching with swapped names")] :
    List (Option (String × String))).filterMap id

/-- One hit of the ORCID expanded-search response, as read by
`search_orcid_researchers` in `mcp_demo/orcid_improved.py`:
`item.get("orcid-id")` (no default), the name parts with default "",
and `item.get("institution-name", [])`. -/
structure OrcidItem where
  orcid_id : Option String
  given_names : String
  family_names : String
  institution_name : List String
  deriving DecidableEq

/-- One researcher entry of the tool's return value. -/
structure Researcher where
  orcid : Option String
  name : String
  affiliation : String
  given_names : String
  family_names : String
  institution_names : List String
  deriving DecidableEq

/-- Parsed body of a 200 response: `data.get("expanded-result", [])` and
`data.get("num-found", 0)`. -/
structure RemoteData where
  expanded_result : List OrcidItem
  num_found : Nat
  deriving DecidableEq

/-- Outcome of `requests.get` (plus `resp.json()`): either a response
with an HTTP status, raw text and parsed data, or a raised exception. -/
inductive RequestOutcome
  | ok (status : Nat) (text : String) (data : RemoteData)
  | raised (msg : String)

/-- Return shape of the `search_orcid_researchers` tool. -/
structure SearchResponse where
  researchers : List Researcher
  total_found : Nat
  error : Option String
  deriving DecidableEq

def ORCID_BASE : String := "https://pub.orcid.org/v3.0"

/-- Query construction of `search_orcid_researchers`: split keywords on
commas and strip; two or more keywords are treated as a name pair,
otherwise a general text query is built. -/
def build_search_query (keywords : String) : String :=
  let kws := (keywords.splitOn ",").map (fun s => s.trim)
  if kws.length ≥ 2 then
    "given-names:" ++ kws.getD 0 "" ++ "+AND+family-name:" ++ kws.getD 1 ""
  else
    String.intercalate "+AND+" (kws.map (fun kw => "text:" ++ kw))

/-- The expanded-search URL requested by the tool. -/
def search_url (keywords : String) : String :=
  ORCID_BASE ++ "/expanded-search/?q=" ++ build_search_query keywords

/-- Per-item researcher record built by the tool's result loop. -/
def mk_researcher (item : OrcidItem) : Researcher :=
  { orcid := item.orcid_id,
    name := (item.given_names ++ " " ++ item.family_names).trim,
    affiliation :=
      if item.institution_name.isEmpty then ""
      else String.intercalate ", " item.institution_name,
    given_names := item.given_names,
    family_names := item.family_names,
    institution_names := item.institution_name }

/-- `search_orcid_researchers` from `mcp_demo/orcid_improved.py` lines
26-101.  The remote service is modelled as a function from the requested
URL to a request outcome.  The whole body runs inside `try/except`, so a
raised request is mapped to the `Search error:` result; a non-200 status
is mapped to the `HTTP ...` result; the `institution` argument is
accepted and never used, exactly as in the source. -/
def search_orcid_researchers (keywords : String) (limit : Option Nat)
    ( institution : Option String) (remote : String → RequestOutcome) :
    SearchResponse :=
  match remote (search_url keywords) with
  | RequestOutcome.raised msg =>
      { researchers := [], total_found := 0,
        error := some ("Search error: " ++ msg) }
  | RequestOutcome.ok status text data =>
      if status ≠ 200 then
        { researchers := [], total_found := 0,
          error := some ("HTTP " ++ toString status ++ ": " ++ text) }
      else if data.expanded_result.isEmpty then
        { researchers := [], total_found := data.num_found, error := none }
      else
        let researchers := data.expanded_result.map mk_researcher
        let limited :=
          match limit with
          | some l => researchers.take l
          | none => researchers
        { researchers := limited, total_found := data.num_found,
          error := none }

/-- One raw work summary as indexed by `g["work-summary"][0]` in
`get_works`: the put-code is a required key, title and year are read
through `.get` chains that may be absent. -/
structure RawWorkSummary where
  put_code : Nat
  title : Option String
  year : Option String
  deriving DecidableEq

/-- One group of the works response; its `work-summary` list may in
principle be empty, in which case the source's `[0]` access raises. -/
structure RawWorkGroup where
  work_summary : List RawWorkSummary
  deriving DecidableEq

/-- One entry of the works list returned by `get_works`. -/
structure WorkEntry where
  put_code : Nat
  title : Option String
  year : Option String
  deriving DecidableEq

/-- Return shape of the `get_works` tool. -/
structure WorksResponse where
  works : List WorkEntry
  error : Option String
  deriving DecidableEq

/-- Outcome of the works request: a 200 response with its parsed group
list, or a non-200 response with status and raw text. -/
inductive WorksRemote
  | ok (groups : List RawWorkGroup)
  | err (status : Nat) (text : String)

/-- The body of the `get_works` loop for one group: take the first work
summary (`g["work-summary"][0]`, raising on an empty list) and copy its
put-code, title and year. -/
def summarize_group (g : RawWorkGroup) : Except String WorkEntry :=
  match g.work_summary with
  | [] => Except.error "IndexError: list index out of range"
  | w :: _ =>
      Except.ok { put_code := w.put_code, title := w.title, year := w.year }

/-- The loop of `get_works` over `groups[:limit]`, appending one entry
per group and propagating a raised access. -/
def collect_works : List RawWorkGroup → Except String (List WorkEntry)
  | [] => Except.ok []
  | g :: gs =>
      match summarize_group g with
      | Except.error e => Except.error e
      | Except.ok w => (collect_works gs).map (fun ws => w :: ws)

/-- `get_works` from `mcp_demo/orcid_improved.py` lines 198-220: a
non-200 response returns `works := []` with the response text as error;
otherwise the first `limit` groups are summarised. -/
def get_works (orcid_id : String) (limit : Nat) (remote : WorksRemote) :
    Except String WorksResponse :=
  match remote with
  | WorksRemote.err _ text =>
      Except.ok { works := [], error := some text }
  | WorksRemote.ok groups =>
      (collect_works (groups.take limit)).map
        (fun works => { works := works, error := none })

/-- The backquote character (code point 96). -/
def backquote : Char := Char.ofNat 96

/-- The opening curly brace character (code point 123). -/
def lbrace : Char := Char.ofNat 123

/-- The closing curly brace character (code point 125). -/
def rbrace : Char := Char.ofNat 125

/-- Python regex whitespace class over ASCII text. -/
def pyIsSpace (c : Char) : Bool :=
  c = ' ' || c = '\t' || c = '\n' || c = '\r' || c = '\x0b' || c = '\x0c'

/-- Match a literal character sequence at the head of the input,
returning the remainder on success. -/
def stripLeadChars : List Char → List Char → Option (List Char)
  | [], l => some l
  | _ :: _, [] => none
  | p :: ps, c :: cs => if c = p then stripLeadChars ps cs else none

/-- The literal opening of the fenced-block pattern: three backquotes
followed by the letters of the word json. -/
def fenceOpen : List Char :=
  [backquote, backquote, backquote, 'j', 's', 'o', 'n']

/-- The closing fence: three backquotes. -/
def fenceEnd : List Char := [backquote, backquote, backquote]

/-- Lazily scan the body of the capture group: stop at the first closing
brace that is followed by optional whitespace and a closing fence, and
return the characters before it; otherwise the brace belongs to the
body and the scan continues.  This is the non-greedy quantifier of the
source regex. -/
def fenceBody (acc : List Char) : List Char → Option (List Char)
  | [] => none
  | c :: cs =>
      if c = rbrace then
        match stripLeadChars fenceEnd (cs.dropWhile pyIsSpace) with
        | some _ => some acc.reverse
        | none => fenceBody (c :: acc) cs
      else fenceBody (c :: acc) cs

/-- Try the fenced-block pattern at the head of the input, returning the
captured group (an outer pair of braces with the lazy body between). -/
def matchFenceAt (l : List Char) : Option (List Char) :=
  match stripLeadChars fenceOpen l with
  | none => none
  | some rest =>
      match rest.dropWhile pyIsSpace with
      | [] => none
      | c :: body =>
          if c = lbrace then
            (fenceBody [] body).map (fun b => (lbrace :: b) ++ [rbrace])
          else none

/-- Leftmost search for the fenced-block pattern, as `re.search` with
the pattern anchored nowhere: try every start position from the left. -/
def searchFence : List Char → Option (List Char)
  | [] => none
  | c :: cs =>
      match matchFenceAt (c :: cs) with
      | some cap => some cap
      | none => searchFence cs

/-- Index of the last occurrence of a character, as Python `str.rfind`
(when one exists). -/
def lastIdxOf (c : Char) (l : List Char) : Option Nat :=
  (l.reverse.findIdx? (fun x => x = c)).map (fun i => l.length - 1 - i)

/-- The fallback substring of `extract_json_from_deepseek_response`:
from the first opening brace to the last closing brace inclusive
(requiring both to occur, the source's `start != -1 and end != 0`
check); an inverted pair yields the empty slice just as in Python. -/
def braceSlice (l : List Char) : Option (List Char) :=
  match l.findIdx? (fun x => x = lbrace), lastIdxOf rbrace l with
  | some s, some e => some ((l.drop s).take (e + 1 - s))
  | _, _ => none

/-- The fenced-block stage: parse the captured group when the pattern
matches, propagating a parse failure as `none` (the source's
`except json.JSONDecodeError: pass`). -/
def fencedValue (α : Type) (jloads : String → Option α)
    (chars : List Char) : Option α :=
  match searchFence chars with
  | some cap => jloads (String.mk cap)
  | none => none

/-- The fallback stage: parse the first-to-last brace substring when
both braces occur, with parse failure again yielding `none`. -/
def fallbackValue (α : Type) (jloads : String → Option α)
    (chars : List Char) : Option α :=
  match braceSlice chars with
  | some sub => jloads (String.mk sub)
  | none => none

/-- `extract_json_from_deepseek_response` from `app/utils/helpers.py`
lines 217-244.  `json.loads` is an external library call; it is
modelled as a total parsing oracle `jloads` returning `none` where the
source would raise `JSONDecodeError` (every call site catches exactly
that).  The input is optional because the source's `if not
response_text` guard also accepts `None`. -/
def extract_json_from_deepseek_response (α : Type)
    (jloads : String → Option α) (response_text : Option String) :
    Option α :=
  match response_text with
  | none => none
  | some t =>
      if t.isEmpty then none
      else
        match fencedValue α jloads t.toList with
        | some v => some v
        | none => fallbackValue α jloads t.toList

/-! Concrete inputs used by the witness theorems. -/

/-- A one-column dictionary row used as a concrete witness input. -/
def demoEntries : List (String × String) := [("col", "v")]

/-- A DeepSeek batch input row whose agent call found nothing. -/
def demoDeepRow : DeepseekRowInput :=
  { row := TableRow.dict demoEntries,
    outcome := DeepseekOutcome.notFound }

/-- A concrete picker result used as a witness input. -/
def demoBest : PickedFields :=
  { orcid_id := some "0000-1", first_name := none, last_name := none,
    email := none, country := none, affiliation := none,
    main_research_area := none, specific_research_area := none }

/-- A multi-agent batch input row whose pick succeeded. -/
def demoMultiRow : MultiRowInput :=
  { row := TableRow.dict demoEntries,
    outcome := MultiRowOutcome.picked demoBest }

/-- The record the multi-agent loop appends for `demoMultiRow`. -/
def demoMultiRec : MultiResultDict :=
  { orcid_id := some "0000-1", first_name := none, last_name := none,
    email := none, country := none, affiliation := none,
    main_research_area := none, specific_research_area := none,
    original_data := demoEntries }

/-- A concrete works group list used as a witness input. -/
def demoGroups : List RawWorkGroup :=
  [{ work_summary := [{ put_code := 7, title := some "T", year := some "2020" }] },
   { work_summary := [{ put_code := 9, title := none, year := none }] }]

/-- A concrete parsing oracle: accepts exactly one JSON object text. -/
def demoLoads (s : String) : Option Nat :=
  if s = "\x7b\"a\": 1\x7d" then some 1 else none

/-- A response text whose JSON object sits in a fenced json code block. -/
def demoFencedText : String := "pre ```json \x7b\"a\": 1\x7d ``` tail"

/-- A response text with a bare JSON object and no code fence. -/
def demoBareText : String := "x \x7b\"a\": 1\x7d y"

/-! Helper lemmas, then the theorems settling the claims. -/

/-- Every branch of the DeepSeek per-row record construction stores the
source row in `original_data`. -/
theorem deepseekProcessDict_original_data (e : List (String × String))
    (o : DeepseekOutcome) :
    (deepseekProcessDict e o).original_data = some e := by
  cases o <;> rfl

/-- Claim C7: a batch whose input table yields zero rows completes
without error, with an empty results list, `total_processed = 0` and
`successful_matches = 0`. -/
theorem zero_row_batch_completes :
    multiAgentTaskFinal [] =
      ("completed",
        { results := [], total_processed := 0, successful_matches := 0 }) :=
  rfl

/-- Claim C9: the `institution` argument of `search_orcid_researchers`
never influences the constructed query or the result: two invocations
differing only in that argument return identical responses. -/
theorem search_institution_irrelevant :
    ∀ (keywords : String) (limit : Option Nat) (inst1 inst2 : Option String)
      (remote : String → RequestOutcome),
      search_orcid_researchers keywords limit inst1 remote =
        search_orcid_researchers keywords limit inst2 remote := by
  intro keywords limit inst1 inst2 remote
  rfl

/-- Claim C3: once a draft has both names, the planned variant list is
exactly `name_only`, then `name_affiliation` iff affiliation is present,
then `name_email` iff email is present, then `name_country` iff country
is present, then the swapped-names variant, in that order. -/
theorem search_variants_exact (a e c : Option String) :
    (search_variants a e c).map Prod.fst =
      ["name_only"] ++
      (if pyTruthy a then ["name_affiliation"] else []) ++
      (if pyTruthy e then ["name_email"] else []) ++
      (if pyTruthy c then ["name_country"] else []) ++
      ["swapped"] := by
  unfold search_variants
  cases ha : pyTruthy a <;> cases he : pyTruthy e <;> cases hc : pyTruthy c <;>
    simp [List.filterMap]

/-- Claim C1, counterexample: in the multi-agent batch task a single
dictionary row whose extraction fails contributes no record, so the
batch result does not contain one enriched record per input row. -/
theorem batch_drops_failed_row :
    (multiAgentTaskResult
        [{ row := TableRow.dict [("name", "Ada")],
           outcome := MultiRowOutcome.extractFailed }]).results.length = 0 ∧
    (multiAgentTaskResult
        [{ row := TableRow.dict [("name", "Ada")],
           outcome := MultiRowOutcome.extractFailed }]).total_processed = 1 := by
  exact ⟨rfl, rfl⟩

/-- Claim C1, amended: in the DeepSeek batch task every dictionary row
contributes exactly one record carrying that row as `original_data`, in
original row order (non-dictionary rows are skipped); in the multi-agent
batch task only rows with a successful pick contribute a record, again
in original row order, and failed rows are dropped from the results
list. -/
theorem batch_row_accounting :
    (∀ rows : List DeepseekRowInput,
        (deepseekBatch rows).map (fun r => r.original_data) =
          rows.filterMap (fun ri =>
            match ri.row with
            | TableRow.dict e => some (some e)
            | TableRow.nonDict => none)) ∧
    (∀ rows : List MultiRowInput,
        (multiAgentBatch rows).map (fun r => r.original_data) =
          rows.filterMap (fun ri =>
            match ri.row, ri.outcome with
            | TableRow.dict e, MultiRowOutcome.picked _ => some e
            | _, _ => none)) := by
  constructor
  · intro rows
    rw [deepseekBatch, List.map_filterMap]
    congr 1
    funext ri
    cases hr : ri.row with
    | dict e => simp [hr, deepseekProcessDict_original_data]
    | nonDict => simp [hr]
  · intro rows
    rw [multiAgentBatch, List.map_filterMap]
    congr 1
    funext ri
    cases hr : ri.row with
    | dict e =>
        cases ho : ri.outcome <;> simp [hr, ho, processRowMulti]
    | nonDict => simp [hr]

/-- Claim C5, counterexample: the no-candidates record of the DeepSeek
batch task carries `None` (not the empty string) in both research-area
fields. -/
theorem no_candidate_empty_string_cex :
    ¬ ((deepseekProcessDict [("x", "y")]
          DeepseekOutcome.notFound).main_research_area = some "" ∧
       (deepseekProcessDict [("x", "y")]
          DeepseekOutcome.notFound).specific_research_area = some "") := by
  decide

/-- Claim C5, amended: when no candidate is found the produced record has
an empty selected identity, confidence 0 and the original row's values
preserved; the research-area fields are null in the DeepSeek batch
task's record and empty strings in the individual multi-agent
endpoint's record. -/
theorem no_candidate_outcome_fields (e ri : List (String × String)) :
    (deepseekProcessDict e DeepseekOutcome.notFound).orcid_id = some "" ∧
    (deepseekProcessDict e DeepseekOutcome.notFound).confidence = 0 ∧
    (deepseekProcessDict e DeepseekOutcome.notFound).main_research_area = none ∧
    (deepseekProcessDict e DeepseekOutcome.notFound).specific_research_area
      = none ∧
    (deepseekProcessDict e DeepseekOutcome.notFound).original_data = some e ∧
    (deepseekProcessDict e DeepseekOutcome.notFound).first_name =
      some (dget e "first_name" (dget e "prenom" "")) ∧
    (individualEmptyResult ri).orcid_id = some "" ∧
    (individualEmptyResult ri).main_research_area = some "" ∧
    (individualEmptyResult ri).specific_research_area = some "" ∧
    (individualEmptyResult ri).first_name =
      some (dget ri "first_name" (dget ri "prenom" "")) :=
  ⟨rfl, rfl, rfl, rfl, rfl, rfl, rfl, rfl, rfl, rfl⟩

/-- Claim C6: every record produced by either batch loop carries, in its
`original_data` field, exactly the raw input row that produced it,
whatever the per-row outcome was. -/
theorem original_data_round_trip :
    (∀ (rows : List DeepseekRowInput) (r : OrcidSearchResult),
        r ∈ deepseekBatch rows →
        ∃ ri, ri ∈ rows ∧ ∃ e, ri.row = TableRow.dict e ∧
          r.original_data = some e) ∧
    (∀ (rows : List MultiRowInput) (r : MultiResultDict),
        r ∈ multiAgentBatch rows →
        ∃ ri, ri ∈ rows ∧ ∃ e, ri.row = TableRow.dict e ∧
          r.original_data = e) := by
  constructor
  · intro rows r hr
    rw [deepseekBatch, List.mem_filterMap] at hr
    obtain ⟨ri, hmem, hf⟩ := hr
    cases hrow : ri.row with
    | nonDict => rw [hrow] at hf; exact Option.noConfusion hf
    | dict e =>
        rw [hrow] at hf
        refine ⟨ri, hmem, e, hrow, ?_⟩
        injection hf with h2
        rw [← h2, deepseekProcessDict_original_data]
  · intro rows r hr
    rw [multiAgentBatch, List.mem_filterMap] at hr
    obtain ⟨ri, hmem, hf⟩ := hr
    cases hrow : ri.row with
    | nonDict => rw [hrow] at hf; exact Option.noConfusion hf
    | dict e =>
        rw [hrow] at hf
        refine ⟨ri, hmem, e, hrow, ?_⟩
        cases ho : ri.outcome with
        | picked best =>
            rw [ho] at hf
            injection hf with h2
            rw [← h2]
        | extractFailed => rw [ho] at hf; exact Option.noConfusion hf
        | missingName => rw [ho] at hf; exact Option.noConfusion hf
        | noSearchResults => rw [ho] at hf; exact Option.noConfusion hf
        | pickerFailed => rw [ho] at hf; exact Option.noConfusion hf

/-- Claim C6, witness: a concrete one-row batch for each loop. -/
theorem original_data_round_trip_witness :
    ((deepseekProcessDict demoEntries DeepseekOutcome.notFound ∈
        deepseekBatch [demoDeepRow]) ∧
      (∃ ri, ri ∈ [demoDeepRow] ∧
        ∃ e, ri.row = TableRow.dict e ∧
          (deepseekProcessDict demoEntries
              DeepseekOutcome.notFound).original_data = some e)) ∧
    ((demoMultiRec ∈ multiAgentBatch [demoMultiRow]) ∧
      (∃ ri, ri ∈ [demoMultiRow] ∧
        ∃ e, ri.row = TableRow.dict e ∧
          demoMultiRec.original_data = e)) := by
  have h1 : deepseekProcessDict demoEntries DeepseekOutcome.notFound ∈
      deepseekBatch [demoDeepRow] := by decide
  have h2 : demoMultiRec ∈ multiAgentBatch [demoMultiRow] := by decide
  exact ⟨⟨h1, original_data_round_trip.1 _ _ h1⟩,
         ⟨h2, original_data_round_trip.2 _ _ h2⟩⟩

/-- Claim C4: a raised request or a non-200 response makes
`search_orcid_researchers` return an empty researchers list with
`total_found = 0` instead of raising. -/
theorem search_error_yields_empty (keywords : String) (limit : Option Nat)
    (inst : Option String) (remote : String → RequestOutcome)
    (h : (∃ msg, remote (search_url keywords) = RequestOutcome.raised msg) ∨
         (∃ status text data,
            remote (search_url keywords) =
              RequestOutcome.ok status text data ∧ status ≠ 200)) :
    (search_orcid_researchers keywords limit inst remote).researchers = [] ∧
    (search_orcid_researchers keywords limit inst remote).total_found = 0 := by
  unfold search_orcid_researchers
  rcases h with ⟨msg, hm⟩ | ⟨status, text, data, hm, hs⟩
  · rw [hm]; exact ⟨rfl, rfl⟩
  · rw [hm]; simp [hs]

/-- Claim C4, witness: a remote that always raises. -/
theorem search_error_yields_empty_witness :
    ((∃ msg, (fun _ : String => RequestOutcome.raised "boom")
        (search_url "a,b") = RequestOutcome.raised msg) ∨
      (∃ status text data,
        (fun _ : String => RequestOutcome.raised "boom") (search_url "a,b") =
          RequestOutcome.ok status text data ∧ status ≠ 200)) ∧
    (search_orcid_researchers "a,b" none none
        (fun _ => RequestOutcome.raised "boom")).researchers = [] ∧
    (search_orcid_researchers "a,b" none none
        (fun _ => RequestOutcome.raised "boom")).total_found = 0 :=
  ⟨Or.inl ⟨"boom", rfl⟩,
   search_error_yields_empty "a,b" none none _ (Or.inl ⟨"boom", rfl⟩)⟩

/-- Specification of the `get_works` loop: a successful run yields one
entry per processed group, each copied from the head of that group's
work-summary list. -/
theorem collect_works_spec :
    ∀ (gs : List RawWorkGroup) (ws : List WorkEntry),
      collect_works gs = Except.ok ws →
      ws.length = gs.length ∧
      ∀ (i : Nat) (hi : i < ws.length) (hg : i < gs.length),
        ∃ w rest, (gs.get ⟨i, hg⟩).work_summary = w :: rest ∧
          ws.get ⟨i, hi⟩ =
            { put_code := w.put_code, title := w.title, year := w.year } := by
  intro gs
  induction gs with
  | nil =>
      intro ws h
      simp only [collect_works] at h
      injection h with h2
      subst h2
      exact ⟨rfl, fun i hi hg => absurd hg (by simp)⟩
  | cons g gs ih =>
      intro ws h
      simp only [collect_works, summarize_group] at h
      cases hs : g.work_summary with
      | nil => rw [hs] at h; exact Except.noConfusion h
      | cons w rest =>
          rw [hs] at h
          cases hcw : collect_works gs with
          | error msg => rw [hcw] at h; exact Except.noConfusion h
          | ok ws2 =>
              rw [hcw] at h
              simp only [Except.map] at h
              injection h with h2
              subst h2
              obtain ⟨hlen, hidx⟩ := ih ws2 hcw
              refine ⟨by simp [hlen], ?_⟩
              intro i hi hg
              cases i with
              | zero => exact ⟨w, rest, by simp [hs], rfl⟩
              | succ j =>
                  have hj : j < ws2.length := by
                    simpa using Nat.lt_of_succ_lt_succ (by simpa using hi)
                  have hjg : j < gs.length := by
                    simpa using Nat.lt_of_succ_lt_succ (by simpa using hg)
                  obtain ⟨w2, r2, hw2, hv2⟩ := hidx j hj hjg
                  exact ⟨w2, r2, hw2, hv2⟩

/-- Claim C8: a successful works fetch with a given limit returns at most
`limit` entries, one per group among the first `limit` groups, each
carrying the put-code, title and year of the first work-summary of its
group. -/
theorem get_works_spec (oid : String) (limit : Nat)
    (groups : List RawWorkGroup) (res : WorksResponse)
    (h : get_works oid limit (WorksRemote.ok groups) = Except.ok res) :
    res.works.length ≤ limit ∧
    res.works.length = (groups.take limit).length ∧
    ∀ (i : Nat) (hi : i < res.works.length)
      (hg : i < (groups.take limit).length),
      ∃ w rest, ((groups.take limit).get ⟨i, hg⟩).work_summary = w :: rest ∧
        res.works.get ⟨i, hi⟩ =
          { put_code := w.put_code, title := w.title, year := w.year } := by
  simp only [get_works] at h
  cases hcw : collect_works (groups.take limit) with
  | error msg => rw [hcw] at h; exact Except.noConfusion h
  | ok ws =>
      rw [hcw] at h
      simp only [Except.map] at h
      injection h with h2
      subst h2
      obtain ⟨hlen, hidx⟩ := collect_works_spec _ _ hcw
      refine ⟨?_, hlen, hidx⟩
      rw [hlen, List.length_take]
      exact min_le_left _ _

/-- Claim C8, witness: two single-summary groups fetched with limit 5. -/
theorem get_works_spec_witness :
    (get_works "0000-0001" 5 (WorksRemote.ok demoGroups) =
      Except.ok { works := [{ put_code := 7, title := some "T",
                              year := some "2020" },
                            { put_code := 9, title := none, year := none }],
                  error := none }) ∧
    (({ works := [{ put_code := 7, title := some "T", year := some "2020" },
                  { put_code := 9, title := none, year := none }],
        error := none } : WorksResponse).works.length ≤ 5) := by
  have h : get_works "0000-0001" 5 (WorksRemote.ok demoGroups) =
      Except.ok { works := [{ put_code := 7, title := some "T",
                              year := some "2020" },
                            { put_code := 9, title := none, year := none }],
                  error := none } := rfl
  exact ⟨h, (get_works_spec "0000-0001" 5 demoGroups _ h).1⟩

/-- Claim C10: the best-effort JSON extraction never raises and returns
an optional parse: `None`/empty input yields `None`; a successfully
parsed fenced json block is returned first; when the fenced stage yields
nothing, the result is the parse of the first-to-last-brace substring
(`None` when that fails or no braces occur). -/
theorem extract_json_total_spec (α : Type) (jloads : String → Option α) :
    extract_json_from_deepseek_response α jloads none = none ∧
    extract_json_from_deepseek_response α jloads (some "") = none ∧
    (∀ (t : String) (v : α), t.isEmpty = false →
        fencedValue α jloads t.toList = some v →
        extract_json_from_deepseek_response α jloads (some t) = some v) ∧
    (∀ t : String, t.isEmpty = false →
        fencedValue α jloads t.toList = none →
        extract_json_from_deepseek_response α jloads (some t) =
          fallbackValue α jloads t.toList) := by
  refine ⟨rfl, rfl, ?_, ?_⟩
  · intro t v he hf
    simp only [extract_json_from_deepseek_response, he, Bool.false_eq_true,
      if_false, hf]
  · intro t he hf
    simp only [extract_json_from_deepseek_response, he, Bool.false_eq_true,
      if_false, hf]

/-- Claim C10, witness: a fenced response and a bare-object response
against a concrete parsing oracle. -/
theorem extract_json_total_spec_witness :
    demoFencedText.isEmpty = false ∧
    fencedValue Nat demoLoads demoFencedText.toList = some 1 ∧
    extract_json_from_deepseek_response Nat demoLoads
      (some demoFencedText) = some 1 ∧
    demoBareText.isEmpty = false ∧
    fencedValue Nat demoLoads demoBareText.toList = none ∧
    extract_json_from_deepseek_response Nat demoLoads (some demoBareText) =
      fallbackValue Nat demoLoads demoBareText.toList := by
  have h1 : fencedValue Nat demoLoads demoFencedText.toList = some 1 := by
    decide
  have h2 : fencedValue Nat demoLoads demoBareText.toList = none := by
    decide
  exact ⟨rfl, h1,
    (extract_json_total_spec Nat demoLoads).2.2.1 demoFencedText 1 rfl h1,
    rfl, h2,
    (extract_json_total_spec Nat demoLoads).2.2.2 demoBareText rfl h2⟩

end ExpertAI
